import Mathlib

/-!
Shallow embedding of the `datafusion-gcs` object-store adapter
(`src/error.rs`, `src/object_store/gcs.rs`) and proofs about its
listing, URI parsing, ranged-read dispatch and error handling.

Strings that get split (URIs, paths, bucket and object names) are
modelled as `List Char`; opaque description strings as `String`.
Byte buffers are `List Nat`; timestamps are abstract `Nat`s.
-/

namespace GcsStore

/-- Error kinds of the host generic I/O error that this adapter uses
(`std::io::ErrorKind::Other` and `std::io::ErrorKind::TimedOut`). -/
inductive ErrorKind where
  | other
  | timedOut
deriving DecidableEq

/-- The crate's error enum from `src/error.rs`: `NotImplemented(String)`
and `GCS(String)`. -/
inductive GCSError where
  | NotImplemented (desc : String)
  | GCS (desc : String)
deriving DecidableEq

/-- A host I/O error as built by `std::io::Error::new(kind, payload)`. -/
structure IoError where
  kind : ErrorKind
  payload : GCSError
deriving DecidableEq

/-- The engine's `SizedFile { path, size }` record. -/
structure SizedFile where
  path : List Char
  size : Nat
deriving DecidableEq

/-- The engine's `FileMeta { sized_file, last_modified }` record. -/
structure FileMeta where
  sized_file : SizedFile
  last_modified : Option Nat
deriving DecidableEq

/-- A backend object record `{ name, size, updated }` as consumed from the
cloud-storage listing response. -/
structure Object where
  name : List Char
  size : Nat
  updated : Nat
deriving DecidableEq

/-- One page of a listing response; the adapter only reads its `items`
field. -/
structure ObjectList where
  items : List Object
deriving DecidableEq

/-- The `Default` instance used by `r.unwrap_or_default()` in `list_file`:
a page with no items. -/
def ObjectList.default : ObjectList := ⟨[]⟩

/-- Outcome of a Rust call that may panic: `todo!()` is modelled as the
`panic` constructor, distinct from returning any `Result`. -/
inductive RustOutcome (α : Type) where
  | ok (a : α)
  | err (e : IoError)
  | panic (msg : String)
deriving DecidableEq

/-- Rust's `str::split_once(pat)` on character lists: splits at the first
occurrence of `sep`, returning the parts before and after it, or `none`
when `sep` does not occur. -/
def splitOnceList (sep : List Char) : List Char → Option (List Char × List Char)
  | [] => none
  | c :: rest =>
    if sep.isPrefixOf (c :: rest) then
      some ([], (c :: rest).drop sep.length)
    else
      (splitOnceList sep rest).map (fun p => (c :: p.1, p.2))

/-- Splitting on a pattern that starts the string cuts exactly that
pattern off. -/
theorem splitOnceList_append_left (sep rest : List Char) (h : sep ≠ []) :
    splitOnceList sep (sep ++ rest) = some ([], rest) := by
  cases sep with
  | nil => exact absurd rfl h
  | cons a as =>
    simp only [List.cons_append, splitOnceList, List.isPrefixOf_iff_prefix]
    rw [if_pos (by exact (List.cons_append a as rest) ▸ List.prefix_append (a :: as) rest)]
    simp [List.drop_left]

/-- Splitting on a single character finds its first occurrence: if `c`
does not occur in `pre`, then `pre ++ c :: post` splits into
`(pre, post)`. -/
theorem splitOnceList_char (c : Char) (pre post : List Char) (h : c ∉ pre) :
    splitOnceList [c] (pre ++ c :: post) = some (pre, post) := by
  induction pre with
  | nil => simp [splitOnceList, List.isPrefixOf]
  | cons b bs ih =>
    have hne : ¬ (c = b) := fun hc => h (hc ▸ List.mem_cons_self b bs)
    have hnotin : c ∉ bs := fun hc => h (List.mem_cons_of_mem b hc)
    simp only [List.cons_append, splitOnceList, List.isPrefixOf, Bool.and_eq_true, beq_iff_eq,
      List.append_eq]
    rw [if_neg (by simp [hne])]
    rw [ih hnotin]
    rfl

/-- Splitting on a single character that does not occur returns `none`. -/
theorem splitOnceList_char_none (c : Char) (s : List Char) (h : c ∉ s) :
    splitOnceList [c] s = none := by
  induction s with
  | nil => rfl
  | cons b bs ih =>
    have hne : ¬ (c = b) := fun hc => h (hc ▸ List.mem_cons_self b bs)
    have hnotin : c ∉ bs := fun hc => h (List.mem_cons_of_mem b hc)
    simp only [splitOnceList, List.isPrefixOf, Bool.and_eq_true, beq_iff_eq]
    rw [if_neg (by simp [hne])]
    rw [ih hnotin]
    rfl

/-- `split_once` returns `none` exactly when the pattern is not an infix
of the string (for a non-empty pattern). -/
theorem splitOnceList_eq_none_iff (sep s : List Char) (hsep : sep ≠ []) :
    splitOnceList sep s = none ↔ ¬ sep <:+: s := by
  induction s with
  | nil =>
    simp [splitOnceList, List.infix_nil]
    exact hsep
  | cons b bs ih =>
    by_cases hpre : sep.isPrefixOf (b :: bs)
    · simp only [splitOnceList, if_pos hpre]
      constructor
      · intro hc; exact absurd hc (by simp)
      · intro hc
        exact absurd ((List.isPrefixOf_iff_prefix.mp hpre).isInfix) hc
    · simp only [splitOnceList, if_neg hpre, Option.map_eq_none']
      rw [ih, List.infix_cons_iff]
      constructor
      · intro hni hc
        cases hc with
        | inl hp => exact hpre (List.isPrefixOf_iff_prefix.mpr hp)
        | inr hi => exact hni hi
      · intro hni hi
        exact hni (Or.inr hi)

/-- The scheme pattern `"gcs://"` that `list_file` splits the URI on. -/
def schemeChars : List Char := ['g', 'c', 's', ':', '/', '/']

/-- URI parsing as performed at the top of `list_file`:
`uri.split_once("gcs://")` (keeping only the part after the scheme), then
`split_once('/')` on the remainder into `(bucket, rest)`, falling back to
`(remainder, "")` when no `/` is present. `none` models the early return
with the `"No s3 scheme found"` error. -/
def parseUri (uri : List Char) : Option (List Char × List Char) :=
  match splitOnceList schemeChars uri with
  | none => none
  | some (_, rest) =>
    match splitOnceList ['/'] rest with
    | some (bucket, pfx) => some (bucket, pfx)
    | none => some (rest, [])

/-- Path formatting used for each listed entry:
`format!("{}/{}", bucket, o.name)`. -/
def formatPath (bucket name : List Char) : List Char :=
  bucket ++ '/' :: name

/-- Path splitting used by `sync_chunk_reader` before calling the backend:
`file_path.split_once('/')`, falling back to `(file_path, "")` when there
is no `/`. -/
def parseFilePath (p : List Char) : List Char × List Char :=
  match splitOnceList ['/'] p with
  | some (bucket, key) => (bucket, key)
  | none => (p, [])

/-- Items taken from one page of the listing response:
`r.unwrap_or_default().items` — a failed page contributes the items of the
default (empty) `ObjectList`. -/
def pageItems (r : Except String ObjectList) : List Object :=
  (match r with
   | Except.ok ol => ol
   | Except.error _ => ObjectList.default).items

/-- The `FileMeta` built by `list_file` for one backend object record. -/
def mkFileMeta (bucket : List Char) (o : Object) : FileMeta :=
  ⟨⟨formatPath bucket o.name, o.size⟩, some o.updated⟩

/-- The flattening of the paged listing stream in `list_file`:
`flat_map` over pages, each page unwrapped with `unwrap_or_default`, its
items mapped to `Ok(FileMeta { .. })`, collected into one sequence. -/
def listFileMetas (bucket : List Char) (pages : List (Except String ObjectList)) :
    List (Except IoError FileMeta) :=
  pages.flatMap fun r => (pageItems r).map (fun o => Except.ok (mkFileMeta bucket o))

/-- The backend listing call `client.object().list(bucket, req)` with
`req.prefix = prefix`, modelled as a function from the bucket and prefix
to either an error (the initial call failing) or the list of response
pages, each page itself a result. -/
def ListBackend : Type :=
  List Char → List Char → Except String (List (Except String ObjectList))

/-- `ObjectStore::list_file(uri)` from `src/object_store/gcs.rs`: parse
the URI (failing with a `GCS`-payload `Other` I/O error when the scheme is
absent), issue the backend listing (mapping its error to a `GCS`-payload
`Other` I/O error), and flatten the pages into the collected sequence of
`FileMeta` results. -/
def list_file (uri : List Char) (backend : ListBackend) :
    Except IoError (List (Except IoError FileMeta)) :=
  match parseUri uri with
  | none => Except.error ⟨ErrorKind.other, GCSError.GCS "No s3 scheme found"⟩
  | some (bucket, pfx) =>
    match backend bucket pfx with
    | Except.error err => Except.error ⟨ErrorKind.other, GCSError.GCS err⟩
    | Except.ok pages => Except.ok (listFileMetas bucket pages)

/-- `ObjectStore::list_dir` from `src/object_store/gcs.rs`: the body is
`todo!()`, which panics with Rust's default message. -/
def list_dir (_pfx : List Char) (_delimiter : Option (List Char)) : RustOutcome Unit :=
  RustOutcome.panic "not yet implemented"

/-- The reader struct `GCSFileReader { file: SizedFile }`. -/
structure GCSFileReader where
  file : SizedFile
deriving DecidableEq

/-- `GCSFileReader::new(file)`: always `Ok(Self { file })`. -/
def GCSFileReader.new (file : SizedFile) : Except IoError GCSFileReader :=
  Except.ok ⟨file⟩

/-- `ObjectStore::file_reader(file)`: `Ok(Arc::new(GCSFileReader::new(file)?))`. -/
def file_reader (file : SizedFile) : Except IoError GCSFileReader := do
  let r ← GCSFileReader.new file
  pure r

/-- `ObjectReader::chunk_reader` from `src/object_store/gcs.rs`: the body
is `todo!("implement once async file readers are available ...")`, which
panics. -/
def GCSFileReader.chunk_reader (_r : GCSFileReader) (_start : Nat) (_length : Nat) :
    RustOutcome Unit :=
  RustOutcome.panic
    "not yet implemented: implement once async file readers are available (arrow-rs#78, arrow-rs#111)"

/-- `ObjectReader::length`: returns the `size` field captured in the
`SizedFile` at construction; a pure accessor with no backend argument. -/
def GCSFileReader.length (r : GCSFileReader) : Nat :=
  r.file.size

/-- The remote store's contents: bucket and key to the object's bytes,
when the object exists. -/
def GcsState : Type :=
  List Char → List Char → Option (List Nat)

/-- Modelled from the spec: the consumed backend call
`download(bucket, key) -> bytes` fetches the full object body (the cloud
SDK itself is outside `src/`). -/
def download (gcs : GcsState) (bucket key : List Char) : Except String (List Nat) :=
  match gcs bucket key with
  | some body => Except.ok body
  | none => Except.error "Object not found"

/-- Modelled from the spec: the consumed backend call
`download_range(bucket, key, offset, length) -> bytes` fetches a byte
range starting at `offset` for `length` bytes. -/
def download_range (gcs : GcsState) (bucket key : List Char) (offset length : Nat) :
    Except String (List Nat) :=
  match gcs bucket key with
  | some body => Except.ok ((body.drop offset).take length)
  | none => Except.error "Object not found"

/-- The closure run on the worker thread inside `sync_chunk_reader`:
split the file path into `(bucket, key)`, call `download_range` when
`length > 0` and `download` otherwise, and wrap a backend error as a
`GCS`-payload `Other` I/O error. -/
def syncChunkWorker (gcs : GcsState) (file_path : List Char) (start length : Nat) :
    Except IoError (List Nat) :=
  let bk := parseFilePath file_path
  let resp :=
    if length > 0 then download_range gcs bk.1 bk.2 start length
    else download gcs bk.1 bk.2
  match resp with
  | Except.ok res => Except.ok res
  | Except.error err => Except.error ⟨ErrorKind.other, GCSError.GCS err⟩

/-- The fixed wait bound of `rx.recv_timeout(Duration::from_secs(10))`,
in seconds. -/
def timeoutSecs : Nat := 10

/-- Whether the worker's result reaches the receiving end of the channel
within the wait bound: `arrival` is the delivery time in seconds, `none`
when no result is ever delivered. -/
def deliveredWithin (arrival : Option Nat) : Bool :=
  match arrival with
  | some t => t ≤ timeoutSecs
  | none => false

/-- `ObjectReader::sync_chunk_reader(start, length)`: dispatch the
download to the worker and block on the channel; a result delivered
within the bound is returned (double `?` on the received value), and
otherwise `recv_timeout` fails and is mapped to a `TimedOut` I/O error. -/
def sync_chunk_reader (gcs : GcsState) (r : GCSFileReader) (start length : Nat)
    (arrival : Option Nat) : Except IoError (List Nat) :=
  if deliveredWithin arrival then syncChunkWorker gcs r.file.path start length
  else Except.error ⟨ErrorKind.timedOut, GCSError.GCS "Timeout"⟩

/-- Whether a listing entry is a successful `FileMeta` (no error item). -/
def entryIsOk : Except IoError FileMeta → Bool
  | Except.ok _ => true
  | Except.error _ => false

/-- Whether a Rust call outcome is a returned error whose payload is the
`NotImplemented` variant of `GCSError`. -/
def isNotImplementedError {α : Type} : RustOutcome α → Bool
  | RustOutcome.err ⟨_, GCSError.NotImplemented _⟩ => true
  | _ => false

/-- Fixture: a remote object record used in concrete evaluations. -/
def objW : Object := ⟨['o'], 5, 7⟩

/-- Fixture: the `SizedFile` of an existing object `k` in bucket `b`. -/
def fileW : SizedFile := ⟨['b', '/', 'k'], 4⟩

/-- Fixture: a reader over `fileW`. -/
def rW : GCSFileReader := ⟨fileW⟩

/-- Fixture: a store holding one object `b/k` with body `[1, 2, 3, 4]`. -/
def gcsW : GcsState := fun b k =>
  if b = ['b'] ∧ k = ['k'] then some [1, 2, 3, 4] else none

/-- Fixture: a backend listing that always succeeds with no pages. -/
def backendW : ListBackend := fun _ _ => Except.ok []

/-- C5: for a URI `gcs://bucket/rest` (scheme present, at least one `/`
after it, `bucket` being the segment up to the first `/`), `list_file`'s
parsing yields exactly `(bucket, rest)`; for `gcs://bucket` with no
further `/`, it yields `(bucket, "")`. -/
theorem c5_uri_parsing (bucket pfx : List Char) (h : '/' ∉ bucket) :
    parseUri (schemeChars ++ bucket ++ '/' :: pfx) = some (bucket, pfx) ∧
    parseUri (schemeChars ++ bucket) = some (bucket, []) := by
  constructor
  · have h1 : splitOnceList schemeChars (schemeChars ++ (bucket ++ '/' :: pfx)) =
        some ([], bucket ++ '/' :: pfx) :=
      splitOnceList_append_left _ _ (by decide)
    unfold parseUri
    rw [List.append_assoc, h1]
    simp [splitOnceList_char _ _ _ h]
  · unfold parseUri
    rw [splitOnceList_append_left _ _ (by decide)]
    simp [splitOnceList_char_none _ _ h]

/-- Witness for C5 at `gcs://b/x/y` and `gcs://b`. -/
theorem c5_uri_parsing_witness :
    parseUri ['g', 'c', 's', ':', '/', '/', 'b', '/', 'x', '/', 'y'] =
      some (['b'], ['x', '/', 'y']) ∧
    parseUri ['g', 'c', 's', ':', '/', '/', 'b'] = some (['b'], []) :=
  c5_uri_parsing ['b'] ['x', '/', 'y'] (by decide)

/-- C6: for a URI that does not contain the `gcs://` scheme, `list_file`
fails with the `GCS`-variant error wrapped as an `Other` I/O error, for
every possible backend — in particular no backend listing call is
consulted. -/
theorem c6_missing_scheme (uri : List Char) (backend : ListBackend)
    (h : ¬ schemeChars <:+: uri) :
    list_file uri backend =
      Except.error ⟨ErrorKind.other, GCSError.GCS "No s3 scheme found"⟩ := by
  have hn : splitOnceList schemeChars uri = none :=
    (splitOnceList_eq_none_iff _ _ (by decide)).mpr h
  unfold list_file parseUri
  rw [hn]

/-- Witness for C6 at the scheme-less URI `s3://b`. -/
theorem c6_missing_scheme_witness :
    list_file ['s', '3', ':', '/', '/', 'b'] backendW =
      Except.error ⟨ErrorKind.other, GCSError.GCS "No s3 scheme found"⟩ :=
  c6_missing_scheme _ backendW (by decide)

/-- C8: round trip of the path convention — for a bucket without `/` and
any object name, formatting the listed path as `"{bucket}/{name}"` and
splitting it on the first `/` (the rule `sync_chunk_reader` applies before
calling `download`/`download_range`) recovers `(bucket, name)`. -/
theorem c8_path_round_trip (bucket name : List Char) (h : '/' ∉ bucket) :
    parseFilePath (formatPath bucket name) = (bucket, name) := by
  unfold parseFilePath formatPath
  rw [splitOnceList_char _ _ _ h]

/-- Witness for C8 at bucket `b` and the slash-containing name `k/x`. -/
theorem c8_path_round_trip_witness :
    parseFilePath ['b', '/', 'k', '/', 'x'] = (['b'], ['k', '/', 'x']) :=
  c8_path_round_trip ['b'] ['k', '/', 'x'] (by decide)

/-- C9: for every reader produced by `file_reader(file)`, `length()`
returns exactly the `size` captured in the `SizedFile`; the accessor
takes no store argument, so its value cannot depend on any later remote
mutation or intervening read. -/
theorem c9_length_captured (file : SizedFile) (r : GCSFileReader)
    (h : file_reader file = Except.ok r) :
    GCSFileReader.length r = file.size := by
  have h' : (Except.ok (⟨file⟩ : GCSFileReader) : Except IoError GCSFileReader) =
      Except.ok r := h
  injection h' with h2
  rw [← h2]
  rfl

/-- Witness for C9 at the fixture reader over `fileW`. -/
theorem c9_length_captured_witness : GCSFileReader.length rW = fileW.size :=
  c9_length_captured fileW rW rfl

/-- C10: `file_reader` succeeds on every `SizedFile` whatsoever, returning
the reader that merely stores the given file; no validation occurs before
the first read call. -/
theorem c10_file_reader_total (file : SizedFile) :
    file_reader file = Except.ok ⟨file⟩ :=
  rfl

/-- C7: a result `m` is among the entries `list_file` produces for
`(bucket, pages)` exactly when some page's item list (failed pages
contributing nothing) holds an object record `o` with
`m = Ok(FileMeta { path: "{bucket}/{name}", size: o.size,
last_modified: Some(o.updated) })`; no entries for other objects are
produced. -/
theorem c7_listing_entries (bucket : List Char)
    (pages : List (Except String ObjectList)) (m : Except IoError FileMeta) :
    m ∈ listFileMetas bucket pages ↔
      ∃ page ∈ pages, ∃ o ∈ pageItems page,
        m = Except.ok ⟨⟨formatPath bucket o.name, o.size⟩, some o.updated⟩ := by
  simp only [listFileMetas, List.mem_flatMap, List.mem_map]
  constructor
  · rintro ⟨page, hp, o, ho, rfl⟩
    exact ⟨page, hp, o, ho, rfl⟩
  · rintro ⟨page, hp, o, ho, rfl⟩
    exact ⟨page, hp, o, ho, rfl⟩

/-- C1 counterexample: a two-page listing whose first page fails. The
produced sequence is the single successful entry from the second page —
the listing continues past the failed page, the error does not appear as
a terminal item, and every produced item is `Ok`. -/
theorem c1_counterexample :
    listFileMetas ['b'] [Except.error "E", Except.ok ⟨[objW]⟩] =
      [Except.ok (mkFileMeta ['b'] objW)] ∧
    (listFileMetas ['b'] [Except.error "E", Except.ok ⟨[objW]⟩]).all entryIsOk = true :=
  ⟨rfl, rfl⟩

/-- C1 (amended): `list_file` silently drops a failed page
(`unwrap_or_default` replaces it with an empty item list) and continues
with the remaining pages; every produced item is `Ok`, so no per-page
error ever appears in the sequence. -/
theorem c1_amended_silent_page_errors (bucket : List Char)
    (p₁ p₂ : List (Except String ObjectList)) (msg : String)
    (pages : List (Except String ObjectList)) :
    listFileMetas bucket (p₁ ++ Except.error msg :: p₂) =
      listFileMetas bucket (p₁ ++ p₂) ∧
    (listFileMetas bucket pages).all entryIsOk = true := by
  constructor
  · simp [listFileMetas, pageItems, ObjectList.default]
  · simp only [listFileMetas, List.all_eq_true]
    intro e he
    rw [List.mem_flatMap] at he
    obtain ⟨page, _, he⟩ := he
    rw [List.mem_map] at he
    obtain ⟨o, _, rfl⟩ := he
    rfl

/-- C2 counterexample: `list_dir` and `chunk_reader` panic via `todo!`
(Rust's "not yet implemented" panic) instead of returning a
`NotImplemented` error; at concrete inputs the outcome is a panic and is
not a returned `NotImplemented` error. -/
theorem c2_counterexample :
    list_dir ['p'] none = RustOutcome.panic "not yet implemented" ∧
    GCSFileReader.chunk_reader rW 0 1 =
      RustOutcome.panic
        "not yet implemented: implement once async file readers are available (arrow-rs#78, arrow-rs#111)" ∧
    isNotImplementedError (list_dir ['p'] none) = false ∧
    isNotImplementedError (GCSFileReader.chunk_reader rW 0 1) = false :=
  ⟨rfl, rfl, rfl, rfl⟩

/-- C2 (amended): on every input, `chunk_reader` and `list_dir` panic
with an "unimplemented" panic (`todo!`); they never return — neither a
`NotImplemented` error nor any other `Result`. -/
theorem c2_amended_panics (pfx : List Char) (delim : Option (List Char))
    (r : GCSFileReader) (start length : Nat) :
    list_dir pfx delim = RustOutcome.panic "not yet implemented" ∧
    GCSFileReader.chunk_reader r start length =
      RustOutcome.panic
        "not yet implemented: implement once async file readers are available (arrow-rs#78, arrow-rs#111)" :=
  ⟨rfl, rfl⟩

/-- C3: for a reader over an existing object whose worker result is
delivered in time, `sync_chunk_reader(start, length)` with `length > 0`
returns (via `download_range`) exactly the `length` bytes of the body
starting at offset `start` (for an in-bounds range), and with
`length == 0` returns (via `download`) the full object body. -/
theorem c3_sync_chunk_read (gcs : GcsState) (r : GCSFileReader)
    (bucket key : List Char) (body : List Nat) (start length : Nat)
    (arrival : Option Nat)
    (hpath : parseFilePath r.file.path = (bucket, key))
    (hobj : gcs bucket key = some body)
    (hdel : deliveredWithin arrival = true) :
    (0 < length → start + length ≤ body.length →
      sync_chunk_reader gcs r start length arrival =
        Except.ok ((body.drop start).take length) ∧
      ((body.drop start).take length).length = length) ∧
    (length = 0 →
      sync_chunk_reader gcs r start length arrival = Except.ok body) := by
  constructor
  · intro hl hle
    refine ⟨?_, ?_⟩
    · simp [sync_chunk_reader, hdel, syncChunkWorker, hpath, download_range, hobj, hl]
    · simp only [List.length_take, List.length_drop]
      omega
  · intro h0
    subst h0
    simp [sync_chunk_reader, hdel, syncChunkWorker, hpath, download, hobj]

/-- Witness for C3: reading 2 bytes at offset 1 of the 4-byte object
`b/k` returns `[2, 3]`. -/
theorem c3_sync_chunk_read_witness :
    sync_chunk_reader gcsW rW 1 2 (some 0) = Except.ok [2, 3] ∧
    ((([1, 2, 3, 4] : List Nat).drop 1).take 2).length = 2 :=
  (c3_sync_chunk_read gcsW rW ['b'] ['k'] [1, 2, 3, 4] 1 2 (some 0)
    (by decide) (by decide) rfl).1 (by decide) (by decide)

/-- C4: whenever the worker's result is not delivered within the fixed
bound — which is 10 seconds — `sync_chunk_reader` returns an error whose
kind is `TimedOut` rather than hanging. -/
theorem c4_recv_timeout (gcs : GcsState) (r : GCSFileReader)
    (start length : Nat) (arrival : Option Nat)
    (h : deliveredWithin arrival = false) :
    sync_chunk_reader gcs r start length arrival =
      Except.error ⟨ErrorKind.timedOut, GCSError.GCS "Timeout"⟩ ∧
    timeoutSecs = 10 := by
  refine ⟨?_, rfl⟩
  simp [sync_chunk_reader, h]

/-- Witness for C4: a result that never arrives yields the `TimedOut`
error. -/
theorem c4_recv_timeout_witness :
    sync_chunk_reader gcsW rW 0 0 none =
      Except.error ⟨ErrorKind.timedOut, GCSError.GCS "Timeout"⟩ ∧
    timeoutSecs = 10 :=
  c4_recv_timeout gcsW rW 0 0 none rfl

end GcsStore
